import Mathlib

set_option autoImplicit false

/-!
Shallow embedding of the oidn-wgpu-interop crate (src/lib.rs and src/vulkan.rs).

Native Vulkan / OIDN / wgpu calls are modelled through explicit environments
(`VkEnv`, `OidnNewEnv`, `PairEnv`) that decide the outcome of each fallible
native call, and every executed native call is recorded as an `Event` in a
trace.  An event of an acquiring call (`createBuffer`, `allocateMemory`,
`getMemoryWin32Handle`, `oidnNewSharedBufferFromWin32Handle`) is recorded only
when the call succeeds, so resource liveness can be read off the trace:
a resource is outstanding when its acquisition event is in the trace and no
matching release event (`destroyBuffer`, `freeMemory`) is.
-/

namespace OidnWgpu

/-- Vulkan `VK_MEMORY_PROPERTY_DEVICE_LOCAL_BIT`, the value of
`vk::MemoryPropertyFlags::DEVICE_LOCAL` used at src/vulkan.rs line 143. -/
def DEVICE_LOCAL : Nat := 1

/-- One entry of `VkPhysicalDeviceMemoryProperties::memoryTypes`
(`vk::MemoryType`); only the property flags are read by the crate. -/
structure MemoryType where
  property_flags : Nat
deriving DecidableEq, Repr

/-- `vk::MemoryRequirements` as returned by `get_buffer_memory_requirements`. -/
structure MemoryRequirements where
  size : Nat
  alignment : Nat
  memory_type_bits : Nat
deriving DecidableEq, Repr

/-- `wgpu::util::align_to`: round `value` up to a multiple of `alignment`
(translated from wgpu's generic implementation:
`let r = value % alignment; if r == 0 then value else value - r + alignment`). -/
def align_to (value alignment : Nat) : Nat :=
  let remainder := value % alignment
  if remainder = 0 then value else value - remainder + alignment

/-- src/vulkan.rs line 147: `req.memory_type_bits & (1 << i) != 0`. -/
def is_required_memory_type (memory_type_bits i : Nat) : Bool :=
  memory_type_bits &&& (1 <<< i) != 0

/-- src/vulkan.rs line 148: `mem_ty.property_flags & flags == flags`
with `flags = DEVICE_LOCAL`. -/
def has_required_properties (mem_ty : MemoryType) : Bool :=
  mem_ty.property_flags &&& DEVICE_LOCAL == DEVICE_LOCAL

/-- The memory-type selection loop of src/vulkan.rs lines 141-153, started at
index `i`: return the first (lowest) index whose type is acceptable for the
buffer and device-local, scanning the remaining list. -/
def select_memory_type_from (memory_type_bits : Nat) : Nat → List MemoryType → Option Nat
  | _, [] => none
  | i, t :: ts =>
    if is_required_memory_type memory_type_bits i && has_required_properties t then some i
    else select_memory_type_from memory_type_bits (i + 1) ts

/-- The whole selection loop (`for (i, mem_ty) in memory_types.iter().enumerate()`
with early `break`), src/vulkan.rs lines 141-157. -/
def select_memory_type (memory_type_bits : Nat) (memory_types : List MemoryType) : Option Nat :=
  select_memory_type_from memory_type_bits 0 memory_types

/-- Native calls performed by `VulkanDevice::allocate_buffers`, recorded in
order.  Acquisition events are recorded only for successful calls; the
release events `destroyBuffer` and `freeMemory` exist so that the absence of
cleanup in the source is expressible (the allocator itself never emits them;
`freeMemory` is emitted by `VulkanBuffer::drop`). -/
inductive Event where
  | createBuffer (buf : Nat) (requested_size : Nat)
  | destroyBuffer (buf : Nat)
  | getBufferMemoryRequirements (buf : Nat)
  | getPhysicalDeviceMemoryProperties
  | allocateMemory (mem : Nat) (alloc_size : Nat) (memory_type_index : Nat)
  | freeMemory (mem : Nat)
  | bindBufferMemory (buf : Nat) (mem : Nat) (offset : Nat)
  | getMemoryWin32Handle (mem : Nat)
  | oidnNewSharedBufferFromWin32Handle (handle : Nat) (byte_size : Nat)
  | clearBuffer (buf : Nat) (range_lo : Nat) (range_hi : Nat)
  | submit
  | waitIdle
deriving DecidableEq, Repr

/-- Environment deciding the outcome of each fallible native call inside
`VulkanDevice::allocate_buffers`, per loop iteration `i`. -/
structure VkEnv where
  create_buffer_ok : Nat → Bool
  requirements : MemoryRequirements
  memory_types : List MemoryType
  allocate_memory_ok : Nat → Bool
  bind_ok : Nat → Bool
  get_handle_ok : Nat → Bool
  oidn_new_shared_ok : Nat → Bool

/-- The `VulkanBuffer` value built at src/vulkan.rs lines 220-225, together
with the sizes that were passed to `oidnNewSharedBufferFromWin32Handle` and to
the wgpu `BufferDescriptor` and the offset passed to `bind_buffer_memory`.
Handles are modelled by the loop iteration index that created them. -/
structure VulkanBuffer where
  memory : Nat
  wgpu_raw : Nat
  alloc_size : Nat
  memory_type_index : Nat
  bind_offset : Nat
  oidn_size : Nat
  wgpu_size : Nat
deriving DecidableEq, Repr

/-- One iteration of the allocation loop, src/vulkan.rs lines 112-226:
create the native buffer, query requirements, align the size, query memory
properties, select a memory type, allocate exportable memory, bind at offset
0, export the Win32 handle, import it into OIDN, clear the buffer and submit,
wrap as a wgpu buffer.  Every error is `Err(None)` exactly as in the source,
and the source performs no cleanup call on any error path. -/
def allocate_one (env : VkEnv) (requested_size : Nat) (i : Nat) :
    Except (Option Unit) VulkanBuffer × List Event :=
  if env.create_buffer_ok i then
    match select_memory_type env.requirements.memory_type_bits env.memory_types with
    | none =>
      (Except.error none,
       [Event.createBuffer i requested_size,
        Event.getBufferMemoryRequirements i,
        Event.getPhysicalDeviceMemoryProperties])
    | some idx =>
      if env.allocate_memory_ok i then
        if env.bind_ok i then
          if env.get_handle_ok i then
            if env.oidn_new_shared_ok i then
              (Except.ok
                { memory := i, wgpu_raw := i,
                  alloc_size := align_to requested_size env.requirements.alignment,
                  memory_type_index := idx, bind_offset := 0,
                  oidn_size := align_to requested_size env.requirements.alignment,
                  wgpu_size := align_to requested_size env.requirements.alignment },
               [Event.createBuffer i requested_size,
                Event.getBufferMemoryRequirements i,
                Event.getPhysicalDeviceMemoryProperties,
                Event.allocateMemory i (align_to requested_size env.requirements.alignment) idx,
                Event.bindBufferMemory i i 0,
                Event.getMemoryWin32Handle i,
                Event.oidnNewSharedBufferFromWin32Handle i
                  (align_to requested_size env.requirements.alignment),
                Event.clearBuffer i 0 (align_to requested_size env.requirements.alignment),
                Event.submit])
            else
              (Except.error none,
               [Event.createBuffer i requested_size,
                Event.getBufferMemoryRequirements i,
                Event.getPhysicalDeviceMemoryProperties,
                Event.allocateMemory i (align_to requested_size env.requirements.alignment) idx,
                Event.bindBufferMemory i i 0,
                Event.getMemoryWin32Handle i])
          else
            (Except.error none,
             [Event.createBuffer i requested_size,
              Event.getBufferMemoryRequirements i,
              Event.getPhysicalDeviceMemoryProperties,
              Event.allocateMemory i (align_to requested_size env.requirements.alignment) idx,
              Event.bindBufferMemory i i 0])
        else
          (Except.error none,
           [Event.createBuffer i requested_size,
            Event.getBufferMemoryRequirements i,
            Event.getPhysicalDeviceMemoryProperties,
            Event.allocateMemory i (align_to requested_size env.requirements.alignment) idx])
      else
        (Except.error none,
         [Event.createBuffer i requested_size,
          Event.getBufferMemoryRequirements i,
          Event.getPhysicalDeviceMemoryProperties])
  else (Except.error none, [])

/-- `VulkanBuffer::drop`, src/vulkan.rs lines 27-36: frees the device memory
(and nothing else). -/
def VulkanBuffer.drop_events (b : VulkanBuffer) : List Event :=
  [Event.freeMemory b.memory]

/-- The `for i in 0..count` loop of src/vulkan.rs lines 112-226 with early
return on error, accumulating the created buffers and the event trace.  The
middle component is the content of the `buffers` vector at loop exit (the
buffers of completed iterations, in push order): on an error it is what the
caller's early return will drop. -/
def allocate_loop (env : VkEnv) (requested_size : Nat) :
    Nat → Nat → Except (Option Unit) (List VulkanBuffer) × List VulkanBuffer × List Event
  | _, 0 => (Except.ok [], [], [])
  | i, fuel + 1 =>
    match allocate_one env requested_size i with
    | (Except.error e, t) => (Except.error e, [], t)
    | (Except.ok b, t) =>
      match allocate_loop env requested_size (i + 1) fuel with
      | (Except.error e, part, t2) => (Except.error e, b :: part, t ++ t2)
      | (Except.ok bs, part, t2) => (Except.ok (b :: bs), b :: part, t ++ t2)

/-- `VulkanDevice::allocate_buffers`, src/vulkan.rs lines 96-231: reject
`size == 0 || count == 0` with `Err(None)` before any native work, then run
the allocation loop.  When the loop fails, the early return (`?` at line 228)
drops the local `buffers` vector, so each `VulkanBuffer` completed in an
earlier iteration runs its `Drop` and frees its device memory, front to
back; on success the vector is returned and nothing is dropped. -/
def VulkanDevice.allocate_buffers (env : VkEnv) (size : Nat) (count : Nat) :
    Except (Option Unit) (List VulkanBuffer) × List Event :=
  if size = 0 ∨ count = 0 then (Except.error none, [])
  else
    match allocate_loop env size 0 count with
    | (Except.ok bufs, _, t) => (Except.ok bufs, t)
    | (Except.error e, part, t) =>
      (Except.error e, t ++ part.flatMap VulkanBuffer.drop_events)

/-- A native vk buffer is outstanding after a trace: it was created and never
destroyed. -/
def buffer_outstanding (t : List Event) (b : Nat) : Prop :=
  (∃ s, Event.createBuffer b s ∈ t) ∧ Event.destroyBuffer b ∉ t

/-- A device-memory allocation is outstanding after a trace: it was allocated
and never freed. -/
def memory_outstanding (t : List Event) (m : Nat) : Prop :=
  (∃ s idx, Event.allocateMemory m s idx ∈ t) ∧ Event.freeMemory m ∉ t

/-- The adapter data read by `VulkanDevice::new` (src/vulkan.rs lines 44-67):
whether `as_hal::<Vulkan>` yields an adapter, whether the adapter supports
`VK_KHR_external_memory_win32`, the adapter's Vulkan API version (present on
the physical device but never read by the crate), and the device UUID from
`VkPhysicalDeviceIDProperties`. -/
structure VkAdapter where
  is_vulkan : Bool
  supports_external_memory_win32 : Bool
  api_version : Nat
  device_uuid : Nat
deriving DecidableEq, Repr

/-- Vulkan version encoding `VK_MAKE_API_VERSION(0, 1, 0, 0)`. -/
def VK_API_VERSION_1_0 : Nat := 1 <<< 22

/-- Vulkan version encoding `VK_MAKE_API_VERSION(0, 1, 1, 0)`. -/
def VK_API_VERSION_1_1 : Nat := (1 <<< 22) + (1 <<< 12)

/-- The capability probe of `VulkanDevice::new`, src/vulkan.rs lines 45-67:
`adapter.as_hal::<Vulkan>` (requires a Vulkan-backed adapter), gated on
`supports_extension(khr::external_memory_win32::NAME)`, then
`get_physical_device_properties2` to read `VkPhysicalDeviceIDProperties`;
the result is the device UUID.  No API-version test appears in the source. -/
def adapter_vulkan_desc (adapter : VkAdapter) : Option Nat :=
  if adapter.is_vulkan then
    if adapter.supports_external_memory_win32 then some adapter.device_uuid
    else none
  else none

/-- Environment for the OIDN and wgpu calls made by `VulkanDevice::new`:
the device handle `oidnNewDeviceByUUID` returns for a UUID (`none` = null),
the result of `oidnGetDeviceError` on the null device (`0` = no error) with
its message, and whether `adapter.request_device` succeeds. -/
structure OidnNewEnv where
  new_device_by_uuid : Nat → Option Nat
  null_device_error : Nat
  null_device_error_msg : String
  request_device_ok : Bool

/-- Outcome of `VulkanDevice::new`: success (carrying the possibly-null OIDN
device handle that got wrapped), `Err(None)` for a probe failure,
`Err(Some(RequestDeviceError))`, or a panic with a message. -/
inductive VkNewOutcome where
  | ok (oidn_device : Option Nat)
  | err (e : Option Unit)
  | panics (msg : String)
deriving DecidableEq, Repr

/-- `VulkanDevice::new`, src/vulkan.rs lines 39-95: run the probe (`Err(None)`
when it yields nothing); call `oidnNewDeviceByUUID`; if the handle is null and
`oidnGetDeviceError` reports an error, panic with its message; otherwise
commit and wrap the (possibly null) handle, request the wgpu device
(propagating failure as `Err(Some(..))`), and return the pair. -/
def VulkanDevice.new (adapter : VkAdapter) (env : OidnNewEnv) : VkNewOutcome :=
  match adapter_vulkan_desc adapter with
  | none => VkNewOutcome.err none
  | some uuid =>
    match env.new_device_by_uuid uuid with
    | none =>
      if env.null_device_error ≠ 0 then VkNewOutcome.panics env.null_device_error_msg
      else if env.request_device_ok then VkNewOutcome.ok none
      else VkNewOutcome.err (some ())
    | some d =>
      if env.request_device_ok then VkNewOutcome.ok (some d)
      else VkNewOutcome.err (some ())

/-- The crate's private `Backend` tag, src/lib.rs lines 59-63. -/
inductive Backend where
  | Dx12
  | Vulkan
deriving DecidableEq, Repr

/-- `DeviceCreateError`, src/lib.rs lines 6-12 (payloads elided). -/
inductive DeviceCreateError where
  | RequestDeviceError
  | OidnUnsupported
  | OidnImportUnsupported
  | MissingFeature
  | UnsupportedBackend
deriving DecidableEq, Repr

/-- `SharedBufferCreateError`, src/lib.rs lines 34-38 (the payload of `Oidn`
elided). -/
inductive SharedBufferCreateError where
  | InvalidSize (size : Nat)
  | Oidn
  | OutOfMemory
deriving DecidableEq, Repr

/-- OIDN device-lifecycle calls made by `Device::new_from_raw_oidn_adapter`. -/
inductive OidnEvent where
  | commitDevice
  | releaseDevice
deriving DecidableEq, Repr

/-- The `Device` value assembled on the success path of
`Device::new_from_raw_oidn_adapter` (src/lib.rs lines 134-143); the wgpu
device and queue are opaque, the OIDN handle and backend tag are kept. -/
structure PairedDevice where
  oidn_device : Nat
  backend : Backend
deriving DecidableEq, Repr

/-- Environment for `Device::new_from_raw_oidn_adapter`: the value
`oidnGetDeviceInt(device, "externalMemoryTypes")` returns after commit, and
whether `adapter.request_device` succeeds. -/
structure PairEnv where
  external_memory_types : Nat
  request_device_ok : Bool

/-- `Device::new_from_raw_oidn_adapter`, src/lib.rs lines 106-144: a null
engine device fails with `OidnUnsupported` before any engine call; otherwise
the device is committed, its supported external-memory-type bitmask is ANDed
with `required_flags`; an empty intersection releases the engine device
(explicit `oidnReleaseDevice`) and fails with `OidnImportUnsupported`; then
the raw handle is wrapped via `oidn::Device::from_raw` and the wgpu device is
requested.  When that request fails, the `?` at line 133 drops the
`oidn::Device` wrapper, whose `Drop` calls `oidnReleaseDevice` — so the
engine device is released on that failure path too before
`RequestDeviceError` is returned.  On success the paired device is returned
together with the intersection. -/
def Device.new_from_raw_oidn_adapter (device : Option Nat) (env : PairEnv)
    (required_flags : Nat) (backend : Backend) :
    Except DeviceCreateError (PairedDevice × Nat) × List OidnEvent :=
  match device with
  | none => (Except.error DeviceCreateError.OidnUnsupported, [])
  | some d =>
    let supported_memory_types := env.external_memory_types
    let supported_flags := supported_memory_types &&& required_flags
    if supported_flags = 0 then
      (Except.error DeviceCreateError.OidnImportUnsupported,
       [OidnEvent.commitDevice, OidnEvent.releaseDevice])
    else if env.request_device_ok then
      (Except.ok ({ oidn_device := d, backend := backend }, supported_flags),
       [OidnEvent.commitDevice])
    else
      (Except.error DeviceCreateError.RequestDeviceError,
       [OidnEvent.commitDevice, OidnEvent.releaseDevice])

/-- `Device::allocate_shared_buffers`, src/lib.rs lines 86-97: reject
`size == 0` with `InvalidSize(size)` before dispatching on the backend tag;
the two backend allocators are parameters because `allocate_shared_buffers_dx12`
and `allocate_shared_buffers_vulkan` are not among the provided sources. -/
def Device.allocate_shared_buffers {α : Type}
    (backend : Backend)
    (alloc_dx12 : Nat → Except SharedBufferCreateError α × List Event)
    (alloc_vk : Nat → Except SharedBufferCreateError α × List Event)
    (size : Nat) : Except SharedBufferCreateError α × List Event :=
  if size = 0 then (Except.error (SharedBufferCreateError.InvalidSize size), [])
  else
    match backend with
    | Backend.Dx12 => alloc_dx12 size
    | Backend.Vulkan => alloc_vk size

/-- Modelled from the spec: the glue `Device::allocate_shared_buffers_vulkan`
is missing from the provided sources (only its caller
`Device::allocate_shared_buffers` and the backend `VulkanDevice::allocate_buffers`
are present).  Per spec section 7, backend allocator failures — "no qualifying
memory type, native allocation failure, bind failure, handle-export failure" —
surface to the caller as the deliberately coarse `OutOfMemory`. -/
def allocate_shared_buffers_vulkan (env : VkEnv) (size : Nat) :
    Except SharedBufferCreateError (List VulkanBuffer) × List Event :=
  match VulkanDevice.allocate_buffers env size 1 with
  | (Except.ok bufs, t) => (Except.ok bufs, t)
  | (Except.error _, t) => (Except.error SharedBufferCreateError.OutOfMemory, t)

/-- Modelled from the spec: the glue `Device::new_vulkan` is missing from the
provided sources (only its caller `Device::new` is).  Per spec section 4.2
step 2, a Capability Prober failure propagates `MissingFeature`; on success
the pairing continues with the probed device UUID (`rest`). -/
def Device.new_vulkan (adapter : VkAdapter)
    (rest : Nat → Except DeviceCreateError (PairedDevice × Nat)) :
    Except DeviceCreateError (PairedDevice × Nat) :=
  match adapter_vulkan_desc adapter with
  | none => Except.error DeviceCreateError.MissingFeature
  | some uuid => rest uuid

/-- Claim-side reading of "set in the buffer's acceptable-type bitmask":
bit `j` of the bitmask is set. -/
def type_bit_set (memory_type_bits j : Nat) : Prop :=
  Nat.testBit memory_type_bits j = true

/-- Claim-side reading of "flagged device-local": bit 0
(`VK_MEMORY_PROPERTY_DEVICE_LOCAL_BIT`) of the property flags is set. -/
def device_local (t : MemoryType) : Prop :=
  Nat.testBit t.property_flags 0 = true

/-- Entry `j` of the memory type list exists, is acceptable for the buffer and
is device-local — the claim-side qualification predicate. -/
def qualifies (memory_type_bits : Nat) (memory_types : List MemoryType) (j : Nat) : Prop :=
  ∃ t, memory_types[j]? = some t ∧ type_bit_set memory_type_bits j ∧ device_local t

instance (bits : Nat) (types : List MemoryType) (j : Nat) :
    Decidable (qualifies bits types j) := by
  unfold qualifies type_bit_set device_local
  cases h : types[j]? with
  | none => exact Decidable.isFalse (by simp [h])
  | some t => exact decidable_of_iff (Nat.testBit bits j = true ∧ Nat.testBit t.property_flags 0 = true) (by simp [h])

/-! Supporting lemmas. -/

lemma is_required_eq (bits j : Nat) :
    is_required_memory_type bits j = Nat.testBit bits j := by
  unfold is_required_memory_type
  rw [Nat.shiftLeft_eq, one_mul, Nat.and_two_pow]
  cases h : Nat.testBit bits j <;> simp [h, (Nat.two_pow_pos j).ne']

lemma has_required_eq (t : MemoryType) :
    has_required_properties t = Nat.testBit t.property_flags 0 := by
  unfold has_required_properties DEVICE_LOCAL
  rw [Nat.and_one_is_mod, Nat.testBit_zero]
  rcases Nat.mod_two_eq_zero_or_one t.property_flags with h | h <;> simp [h]

lemma qualifies_iff (bits : Nat) (types : List MemoryType) (j : Nat) :
    qualifies bits types j ↔
      ∃ t, types[j]? = some t ∧
        (is_required_memory_type bits j && has_required_properties t) = true := by
  unfold qualifies type_bit_set device_local
  constructor
  · rintro ⟨t, ht, h1, h2⟩
    exact ⟨t, ht, by rw [is_required_eq, has_required_eq, h1, h2]; rfl⟩
  · rintro ⟨t, ht, h⟩
    rw [is_required_eq, has_required_eq, Bool.and_eq_true] at h
    exact ⟨t, ht, h.1, h.2⟩

lemma select_from_eq_some (bits : Nat) :
    ∀ (types : List MemoryType) (s k : Nat),
      select_memory_type_from bits s types = some k →
      s ≤ k ∧
      (∃ t, types[k - s]? = some t ∧
        (is_required_memory_type bits k && has_required_properties t) = true) ∧
      ∀ j, s ≤ j → j < k → ∀ t, types[j - s]? = some t →
        (is_required_memory_type bits j && has_required_properties t) = false
  | [], s, k => by
    intro h
    simp [select_memory_type_from] at h
  | t :: ts, s, k => by
    intro h
    unfold select_memory_type_from at h
    by_cases hc : (is_required_memory_type bits s && has_required_properties t) = true
    · rw [if_pos hc] at h
      cases h
      refine ⟨Nat.le_refl _, ⟨t, by simp, hc⟩, ?_⟩
      intro j hj1 hj2
      omega
    · rw [if_neg hc] at h
      obtain ⟨hsk, ⟨t2, ht2, hacc⟩, hmin⟩ := select_from_eq_some bits ts (s + 1) k h
      refine ⟨by omega, ⟨t2, ?_, hacc⟩, ?_⟩
      · have hks : k - s = (k - (s + 1)) + 1 := by omega
        rw [hks]
        simpa using ht2
      · intro j hj1 hj2 t3 ht3
        rcases Nat.eq_or_lt_of_le hj1 with hEq | hlt
        · subst hEq
          simp [Nat.sub_self] at ht3
          subst ht3
          simpa using hc
        · have hjs : j - s = (j - (s + 1)) + 1 := by omega
          rw [hjs] at ht3
          simp at ht3
          exact hmin j hlt hj2 t3 ht3

lemma select_some_qualifies (bits : Nat) (types : List MemoryType) (k : Nat)
    (h : select_memory_type bits types = some k) :
    qualifies bits types k ∧ ∀ j < k, ¬ qualifies bits types j := by
  obtain ⟨-, ⟨t, ht, hacc⟩, hmin⟩ := select_from_eq_some bits types 0 k h
  constructor
  · exact (qualifies_iff bits types k).mpr ⟨t, by simpa using ht, hacc⟩
  · intro j hj hq
    obtain ⟨t3, ht3, hacc3⟩ := (qualifies_iff bits types j).mp hq
    have hfalse := hmin j (Nat.zero_le _) hj t3 (by simpa using ht3)
    rw [hacc3] at hfalse
    cases hfalse

lemma select_none_of_no_qualifies (bits : Nat) (types : List MemoryType)
    (h : ∀ j, ¬ qualifies bits types j) :
    select_memory_type bits types = none := by
  cases hs : select_memory_type bits types with
  | none => rfl
  | some k => exact absurd (select_some_qualifies bits types k hs).1 (h k)

lemma allocate_one_ok (env : VkEnv) (size i : Nat) (b : VulkanBuffer) (t : List Event)
    (h : allocate_one env size i = (Except.ok b, t)) :
    env.create_buffer_ok i = true ∧
    select_memory_type env.requirements.memory_type_bits env.memory_types =
      some b.memory_type_index ∧
    b = { memory := i, wgpu_raw := i,
          alloc_size := align_to size env.requirements.alignment,
          memory_type_index := b.memory_type_index, bind_offset := 0,
          oidn_size := align_to size env.requirements.alignment,
          wgpu_size := align_to size env.requirements.alignment } ∧
    t = [Event.createBuffer i size,
         Event.getBufferMemoryRequirements i,
         Event.getPhysicalDeviceMemoryProperties,
         Event.allocateMemory i (align_to size env.requirements.alignment) b.memory_type_index,
         Event.bindBufferMemory i i 0,
         Event.getMemoryWin32Handle i,
         Event.oidnNewSharedBufferFromWin32Handle i (align_to size env.requirements.alignment),
         Event.clearBuffer i 0 (align_to size env.requirements.alignment),
         Event.submit] := by
  unfold allocate_one at h
  split at h
  · split at h
    · simp at h
    · split at h
      · split at h
        · split at h
          · split at h
            · injection h with h1 h2
              injection h1 with h1
              subst h1
              subst h2
              refine ⟨by assumption, by assumption, rfl, rfl⟩
            · simp at h
          · simp at h
        · simp at h
      · simp at h
  · simp at h

lemma allocate_one_error (env : VkEnv) (size i : Nat) (e : Option Unit) (t : List Event)
    (h : allocate_one env size i = (Except.error e, t)) : e = none := by
  unfold allocate_one at h
  repeat' split at h
  all_goals simp_all

lemma allocate_loop_error (env : VkEnv) (size : Nat) :
    ∀ (fuel i : Nat) (e : Option Unit) (part : List VulkanBuffer) (t : List Event),
      allocate_loop env size i fuel = (Except.error e, part, t) → e = none
  | 0, i, e, part, t => by
    intro h
    simp [allocate_loop] at h
  | fuel + 1, i, e, part, t => by
    intro h
    unfold allocate_loop at h
    rcases h1 : allocate_one env size i with ⟨r1, t1⟩
    rw [h1] at h
    cases r1 with
    | error e1 =>
      simp at h
      obtain ⟨he, -, -⟩ := h
      subst he
      exact allocate_one_error env size i e1 t1 h1
    | ok b1 =>
      rcases h2 : allocate_loop env size (i + 1) fuel with ⟨r2, part2, t2⟩
      rw [h2] at h
      cases r2 with
      | error e2 =>
        simp at h
        obtain ⟨he, -, -⟩ := h
        subst he
        exact allocate_loop_error env size fuel (i + 1) e2 part2 t2 h2
      | ok bufs2 => simp at h

/-- The per-buffer facts the allocation loop establishes for each buffer it
returns, relative to the half-open range of iteration indices `[lo, hi)` and
the loop's event trace `t`. -/
def loop_buf_ok (env : VkEnv) (size lo hi : Nat) (t : List Event) (b : VulkanBuffer) : Prop :=
  lo ≤ b.wgpu_raw ∧ b.wgpu_raw < hi ∧
  b.memory = b.wgpu_raw ∧
  b.alloc_size = align_to size env.requirements.alignment ∧
  b.oidn_size = b.alloc_size ∧ b.wgpu_size = b.alloc_size ∧ b.bind_offset = 0 ∧
  select_memory_type env.requirements.memory_type_bits env.memory_types =
    some b.memory_type_index ∧
  Event.allocateMemory b.memory b.alloc_size b.memory_type_index ∈ t ∧
  Event.bindBufferMemory b.wgpu_raw b.memory 0 ∈ t ∧
  List.count (Event.clearBuffer b.wgpu_raw 0 b.wgpu_size) t = 1

lemma allocate_loop_ok (env : VkEnv) (size : Nat) :
    ∀ (fuel i : Nat) (bufs part : List VulkanBuffer) (t : List Event),
      allocate_loop env size i fuel = (Except.ok bufs, part, t) →
      bufs.length = fuel ∧
      List.count Event.submit t = fuel ∧
      Event.waitIdle ∉ t ∧
      (∀ r lo hi, Event.clearBuffer r lo hi ∈ t → i ≤ r ∧ r < i + fuel) ∧
      ∀ b ∈ bufs, loop_buf_ok env size i (i + fuel) t b
  | 0, i, bufs, part, t => by
    intro h
    simp [allocate_loop] at h
    obtain ⟨rfl, rfl, rfl⟩ := h
    simp
  | fuel + 1, i, bufs, part, t => by
    intro h
    unfold allocate_loop at h
    rcases h1 : allocate_one env size i with ⟨r1, t1⟩
    rw [h1] at h
    cases r1 with
    | error e1 => simp at h
    | ok b1 =>
      rcases h2 : allocate_loop env size (i + 1) fuel with ⟨r2, part2, t2⟩
      rw [h2] at h
      cases r2 with
      | error e2 => simp at h
      | ok bufs2 =>
        simp at h
        obtain ⟨hbufs, -, ht⟩ := h
        subst hbufs
        subst ht
        obtain ⟨hlen, hsub, hwait, hrange, hbok⟩ :=
          allocate_loop_ok env size fuel (i + 1) bufs2 part2 t2 h2
        obtain ⟨hcreate, hsel, hb, ht1⟩ := allocate_one_ok env size i b1 t1 h1
        refine ⟨by simp [hlen], ?_, ?_, ?_, ?_⟩
        · rw [List.count_append, hsub, ht1]
          simp [List.count_cons]
          omega
        · rw [List.mem_append]
          rintro (hmem | hmem)
          · rw [ht1] at hmem
            simp at hmem
          · exact hwait hmem
        · intro r lo hi hmem
          rw [List.mem_append] at hmem
          rcases hmem with hmem | hmem
          · rw [ht1] at hmem
            simp at hmem
            obtain ⟨hr, -, -⟩ := hmem
            omega
          · have := hrange r lo hi hmem
            omega
        · intro b hbmem
          rcases List.mem_cons.mp hbmem with hbeq | hbmem2
          · subst hbeq
            rw [hb]
            unfold loop_buf_ok
            refine ⟨by simp, by simp, rfl, rfl, rfl, rfl, rfl, ?_, ?_, ?_, ?_⟩
            · simpa using hsel
            · rw [List.mem_append, ht1]
              left
              simp
            · rw [List.mem_append, ht1]
              left
              simp
            · rw [List.count_append, ht1]
              have hz : List.count (Event.clearBuffer i 0
                  (align_to size env.requirements.alignment)) t2 = 0 := by
                rw [List.count_eq_zero]
                intro hmem
                have := hrange i 0 (align_to size env.requirements.alignment) hmem
                omega
              rw [hz]
              simp [List.count_cons]
          · have hparts := hbok b hbmem2
            unfold loop_buf_ok at hparts ⊢
            obtain ⟨p1, p2, p3, p4, p5, p6, p7, p8, p9, p10, p11⟩ := hparts
            refine ⟨by omega, by omega, p3, p4, p5, p6, p7, p8, ?_, ?_, ?_⟩
            · rw [List.mem_append]
              right
              exact p9
            · rw [List.mem_append]
              right
              exact p10
            · rw [List.count_append, p11, ht1]
              have hne : b.wgpu_raw ≠ i := by omega
              simp [List.count_cons, hne]

lemma align_to_spec (v a : Nat) (ha : 0 < a) :
    v ≤ align_to v a ∧ align_to v a % a = 0 ∧ align_to v a < v + a := by
  unfold align_to
  by_cases h : v % a = 0
  · rw [if_pos h]
    exact ⟨Nat.le_refl _, h, by omega⟩
  · rw [if_neg h]
    have h1 : v % a < a := Nat.mod_lt _ ha
    have h2 : v % a ≤ v := Nat.mod_le _ _
    have h3 := Nat.div_add_mod v a
    refine ⟨by omega, ?_, by omega⟩
    have hX : v - v % a + a = a * (v / a) + a := by omega
    rw [hX, ← Nat.mul_succ]
    exact Nat.mul_mod_right a _

lemma allocate_loop_one (env : VkEnv) (size i : Nat) :
    allocate_loop env size i 1 =
      match allocate_one env size i with
      | (Except.error e, t) => (Except.error e, [], t)
      | (Except.ok b, t) => (Except.ok [b], [b], t ++ []) := by
  unfold allocate_loop
  rcases allocate_one env size i with ⟨r, t⟩
  cases r <;> rfl

lemma allocate_buffers_ok (env : VkEnv) (size count : Nat)
    (bufs : List VulkanBuffer) (t : List Event)
    (h : VulkanDevice.allocate_buffers env size count = (Except.ok bufs, t)) :
    size ≠ 0 ∧ count ≠ 0 ∧
    bufs.length = count ∧
    List.count Event.submit t = count ∧
    Event.waitIdle ∉ t ∧
    ∀ b ∈ bufs, loop_buf_ok env size 0 count t b := by
  unfold VulkanDevice.allocate_buffers at h
  split at h
  · simp at h
  · rename_i hcond
    push_neg at hcond
    rcases hloop : allocate_loop env size 0 count with ⟨r, part, tl⟩
    rw [hloop] at h
    cases r with
    | error e => simp at h
    | ok bufs2 =>
      simp at h
      obtain ⟨hb, ht⟩ := h
      subst hb
      subst ht
      obtain ⟨hlen, hsub, hwait, -, hbok⟩ :=
        allocate_loop_ok env size count 0 bufs2 part tl hloop
      exact ⟨hcond.1, hcond.2, hlen, hsub, hwait, by simpa using hbok⟩

lemma allocate_buffers_error (env : VkEnv) (size count : Nat)
    (e : Option Unit) (t : List Event)
    (h : VulkanDevice.allocate_buffers env size count = (Except.error e, t)) : e = none := by
  unfold VulkanDevice.allocate_buffers at h
  split at h
  · simp at h
    exact h.1.symm
  · rcases hloop : allocate_loop env size 0 count with ⟨r, part, tl⟩
    rw [hloop] at h
    cases r with
    | ok bufs2 => simp at h
    | error e2 =>
      simp at h
      obtain ⟨he, -⟩ := h
      subst he
      exact allocate_loop_error env size count 0 e2 part tl hloop

/-! Concrete environments used by the code-bug demonstration, the
counterexamples and the witnesses. -/

/-- Environment in which every native call succeeds but the only memory type
is not device-local, so memory-type selection fails after the native buffer
was created. -/
def c1_env : VkEnv :=
  { create_buffer_ok := fun _ => true
    requirements := { size := 4, alignment := 4, memory_type_bits := 1 }
    memory_types := [{ property_flags := 0 }]
    allocate_memory_ok := fun _ => true
    bind_ok := fun _ => true
    get_handle_ok := fun _ => true
    oidn_new_shared_ok := fun _ => true }

/-- Environment in which buffer creation, selection and the physical memory
allocation succeed but `bind_buffer_memory` fails. -/
def c1_env_bind_fail : VkEnv :=
  { create_buffer_ok := fun _ => true
    requirements := { size := 4, alignment := 4, memory_type_bits := 1 }
    memory_types := [{ property_flags := 1 }]
    allocate_memory_ok := fun _ => true
    bind_ok := fun _ => false
    get_handle_ok := fun _ => true
    oidn_new_shared_ok := fun _ => true }

/-- Environment in which every native call succeeds; the first memory type is
not device-local, the second is acceptable and device-local. -/
def ok_env : VkEnv :=
  { create_buffer_ok := fun _ => true
    requirements := { size := 8, alignment := 4, memory_type_bits := 2 }
    memory_types := [{ property_flags := 0 }, { property_flags := 1 }]
    allocate_memory_ok := fun _ => true
    bind_ok := fun _ => true
    get_handle_ok := fun _ => true
    oidn_new_shared_ok := fun _ => true }

/-- The buffer `allocate_buffers ok_env 6 1` returns: requested size 6 is
rounded up to 8 and memory type 1 is selected. -/
def ok_buf : VulkanBuffer :=
  { memory := 0, wgpu_raw := 0, alloc_size := 8, memory_type_index := 1,
    bind_offset := 0, oidn_size := 8, wgpu_size := 8 }

/-- The event trace of `allocate_buffers ok_env 6 1`. -/
def ok_trace : List Event :=
  [Event.createBuffer 0 6, Event.getBufferMemoryRequirements 0,
   Event.getPhysicalDeviceMemoryProperties, Event.allocateMemory 0 8 1,
   Event.bindBufferMemory 0 0 0, Event.getMemoryWin32Handle 0,
   Event.oidnNewSharedBufferFromWin32Handle 0 8, Event.clearBuffer 0 0 8,
   Event.submit]

/-! Claim theorems. -/

/-- Claim C1 (code bug): the claim says every failing execution of
shared-buffer allocation releases all native resources acquired before the
failure.  The code does not: in `c1_env`, memory-type selection fails after
`create_buffer` succeeded and the native buffer is left outstanding (created,
never destroyed), and in `c1_env_bind_fail` the bind failure after the
physical memory allocation leaves that memory outstanding (allocated, never
freed).  The error paths of src/vulkan.rs lines 155-204 contain no
`destroy_buffer` or `free_memory` call. -/
theorem claim_C1_leak_on_failure :
    ((VulkanDevice.allocate_buffers c1_env 4 1).1 = Except.error none ∧
      buffer_outstanding (VulkanDevice.allocate_buffers c1_env 4 1).2 0) ∧
    ((VulkanDevice.allocate_buffers c1_env_bind_fail 4 1).1 = Except.error none ∧
      memory_outstanding (VulkanDevice.allocate_buffers c1_env_bind_fail 4 1).2 0) := by
  refine ⟨⟨rfl, ⟨4, ?_⟩, ?_⟩, ⟨rfl, ⟨4, 0, ?_⟩, ?_⟩⟩ <;> decide

/-- Claim C4: a null engine device handle makes `new_from_raw_oidn_adapter`
fail with `OidnUnsupported` immediately, with no engine call performed (empty
trace, and the error variant carries no engine-side details). -/
theorem claim_C4_null_device_unsupported :
    ∀ (env : PairEnv) (required_flags : Nat) (backend : Backend),
      Device.new_from_raw_oidn_adapter none env required_flags backend =
        (Except.error DeviceCreateError.OidnUnsupported, []) := by
  intro env rf b
  rfl

/-- Claim C5: after committing the engine device, the supported
external-memory-type bitmask is ANDed with the required flag; a zero
intersection releases the engine device and fails with
`OidnImportUnsupported`; otherwise the nonzero intersection is what a
successful pairing returns for later use by the allocator (and on the
success path the engine device is kept, with the commit as the only
engine-lifecycle call). -/
theorem claim_C5_memory_type_intersection (d : Nat) (env : PairEnv)
    (required_flags : Nat) (backend : Backend) :
    (env.external_memory_types &&& required_flags = 0 →
      Device.new_from_raw_oidn_adapter (some d) env required_flags backend =
        (Except.error DeviceCreateError.OidnImportUnsupported,
         [OidnEvent.commitDevice, OidnEvent.releaseDevice])) ∧
    (env.external_memory_types &&& required_flags ≠ 0 →
      (env.request_device_ok = true →
        Device.new_from_raw_oidn_adapter (some d) env required_flags backend =
          (Except.ok ({ oidn_device := d, backend := backend },
            env.external_memory_types &&& required_flags),
           [OidnEvent.commitDevice])) ∧
      ∀ dev flags,
        (Device.new_from_raw_oidn_adapter (some d) env required_flags backend).1 =
          Except.ok (dev, flags) →
        flags = env.external_memory_types &&& required_flags) := by
  constructor
  · intro h
    simp [Device.new_from_raw_oidn_adapter, h]
  · intro h
    cases hreq : env.request_device_ok with
    | true =>
      constructor
      · intro hr
        simp [Device.new_from_raw_oidn_adapter, h, hreq]
      · intro dev flags heq
        simp [Device.new_from_raw_oidn_adapter, h, hreq] at heq
        exact heq.2.symm
    | false =>
      constructor
      · intro hr
        simp at hr
      · intro dev flags heq
        simp [Device.new_from_raw_oidn_adapter, h, hreq] at heq

/-- Engine environment whose supported external-memory types (3) intersect
the required flag (1). -/
def pair_env5 : PairEnv := { external_memory_types := 3, request_device_ok := true }

/-- Engine environment whose supported external-memory types (2) do not
intersect the required flag (1). -/
def pair_env_zero : PairEnv := { external_memory_types := 2, request_device_ok := true }

/-- Witness for claim C5 at concrete inputs: an empty intersection
(engine types 2, required flag 1) and a nonzero one (engine types 3,
required flag 1). -/
theorem claim_C5_witness :
    (Device.new_from_raw_oidn_adapter (some 7) pair_env_zero 1 Backend.Vulkan =
      (Except.error DeviceCreateError.OidnImportUnsupported,
       [OidnEvent.commitDevice, OidnEvent.releaseDevice])) ∧
    ((pair_env5.request_device_ok = true →
       Device.new_from_raw_oidn_adapter (some 7) pair_env5 1 Backend.Vulkan =
         (Except.ok ({ oidn_device := 7, backend := Backend.Vulkan },
           pair_env5.external_memory_types &&& 1),
          [OidnEvent.commitDevice])) ∧
     ∀ dev flags,
       (Device.new_from_raw_oidn_adapter (some 7) pair_env5 1 Backend.Vulkan).1 =
         Except.ok (dev, flags) →
       flags = pair_env5.external_memory_types &&& 1) :=
  ⟨(claim_C5_memory_type_intersection 7 pair_env_zero 1 Backend.Vulkan).1 (by decide),
   (claim_C5_memory_type_intersection 7 pair_env5 1 Backend.Vulkan).2 (by decide)⟩

/-- Claim C6: a zero-size request is rejected with `InvalidSize` by
`Device::allocate_shared_buffers` itself, for every backend tag and every
pair of backend allocators — so no backend allocator is ever invoked and no
native call is made (empty trace). -/
theorem claim_C6_zero_size_rejected {α : Type} :
    ∀ (backend : Backend)
      (alloc_dx12 alloc_vk : Nat → Except SharedBufferCreateError α × List Event),
      Device.allocate_shared_buffers backend alloc_dx12 alloc_vk 0 =
        (Except.error (SharedBufferCreateError.InvalidSize 0), []) := by
  intro backend fd fv
  rfl

/-- Claim C10: a zero count is rejected with the same error `Err(None)` as a
zero size, before any native work (empty trace), and every successful call
returns exactly `count` buffers. -/
theorem claim_C10_count :
    (∀ (env : VkEnv) (size : Nat),
      VulkanDevice.allocate_buffers env size 0 = (Except.error none, [])) ∧
    (∀ (env : VkEnv) (count : Nat),
      VulkanDevice.allocate_buffers env 0 count = (Except.error none, [])) ∧
    (∀ (env : VkEnv) (size count : Nat) (bufs : List VulkanBuffer) (t : List Event),
      VulkanDevice.allocate_buffers env size count = (Except.ok bufs, t) →
      bufs.length = count) := by
  refine ⟨?_, ?_, ?_⟩
  · intro env size
    unfold VulkanDevice.allocate_buffers
    rw [if_pos (Or.inr rfl)]
  · intro env count
    unfold VulkanDevice.allocate_buffers
    rw [if_pos (Or.inl rfl)]
  · intro env size count bufs t h
    exact (allocate_buffers_ok env size count bufs t h).2.2.1

/-- Witness for claim C10: the successful allocation of one buffer in
`ok_env` returns a vector of length one. -/
theorem claim_C10_witness : ([ok_buf] : List VulkanBuffer).length = 1 :=
  claim_C10_count.2.2 ok_env 6 1 [ok_buf] ok_trace rfl

/-- Claim C2: every buffer of a successful allocation uses the lowest-indexed
memory type that is both set in the buffer's acceptable-type bitmask and
flagged device-local; and when no memory type qualifies, the allocation fails
with `OutOfMemory` (through the spec-modelled Vulkan glue) without ever
attempting a memory allocation — no fallback to non-device-local memory. -/
theorem claim_C2_memory_type_selection :
    (∀ (env : VkEnv) (size count : Nat) (bufs : List VulkanBuffer) (t : List Event),
      VulkanDevice.allocate_buffers env size count = (Except.ok bufs, t) →
      ∀ b ∈ bufs,
        qualifies env.requirements.memory_type_bits env.memory_types b.memory_type_index ∧
        ∀ j < b.memory_type_index,
          ¬ qualifies env.requirements.memory_type_bits env.memory_types j) ∧
    (∀ (env : VkEnv) (size : Nat),
      (∀ j, ¬ qualifies env.requirements.memory_type_bits env.memory_types j) →
      size ≠ 0 →
      (allocate_shared_buffers_vulkan env size).1 =
        Except.error SharedBufferCreateError.OutOfMemory ∧
      ∀ m s idx, Event.allocateMemory m s idx ∉ (allocate_shared_buffers_vulkan env size).2) := by
  constructor
  · intro env size count bufs t h b hb
    obtain ⟨-, -, -, -, -, hbok⟩ := allocate_buffers_ok env size count bufs t h
    have hsel := (hbok b hb).2.2.2.2.2.2.2.1
    exact select_some_qualifies _ _ _ hsel
  · intro env size hq hsize
    have hnone := select_none_of_no_qualifies _ _ hq
    cases hcb : env.create_buffer_ok 0 with
    | false =>
      have hone : allocate_one env size 0 = (Except.error none, []) := by
        unfold allocate_one
        rw [if_neg (by simp [hcb])]
      have hvk : VulkanDevice.allocate_buffers env size 1 = (Except.error none, []) := by
        unfold VulkanDevice.allocate_buffers
        rw [if_neg (by simp [hsize]), allocate_loop_one, hone]
        rfl
      constructor
      · simp [allocate_shared_buffers_vulkan, hvk]
      · intro m s idx
        simp [allocate_shared_buffers_vulkan, hvk]
    | true =>
      have hone : allocate_one env size 0 = (Except.error none,
          [Event.createBuffer 0 size, Event.getBufferMemoryRequirements 0,
           Event.getPhysicalDeviceMemoryProperties]) := by
        unfold allocate_one
        rw [if_pos hcb, hnone]
      have hvk : VulkanDevice.allocate_buffers env size 1 = (Except.error none,
          [Event.createBuffer 0 size, Event.getBufferMemoryRequirements 0,
           Event.getPhysicalDeviceMemoryProperties]) := by
        unfold VulkanDevice.allocate_buffers
        rw [if_neg (by simp [hsize]), allocate_loop_one, hone]
        rfl
      constructor
      · simp [allocate_shared_buffers_vulkan, hvk]
      · intro m s idx
        simp [allocate_shared_buffers_vulkan, hvk]

/-- Witness for claim C2: in `ok_env` the single allocated buffer selects
memory type 1 (type 0 is not acceptable), and in `c1_env` (no device-local
type) the spec-modelled Vulkan glue fails with `OutOfMemory` without an
allocation attempt. -/
theorem claim_C2_witness :
    (∀ b ∈ [ok_buf],
      qualifies ok_env.requirements.memory_type_bits ok_env.memory_types b.memory_type_index ∧
      ∀ j < b.memory_type_index,
        ¬ qualifies ok_env.requirements.memory_type_bits ok_env.memory_types j) ∧
    ((allocate_shared_buffers_vulkan c1_env 4).1 =
        Except.error SharedBufferCreateError.OutOfMemory ∧
      ∀ m s idx, Event.allocateMemory m s idx ∉ (allocate_shared_buffers_vulkan c1_env 4).2) :=
  ⟨claim_C2_memory_type_selection.1 ok_env 6 1 [ok_buf] ok_trace rfl,
   claim_C2_memory_type_selection.2 c1_env 4
     (by
       intro j
       cases j with
       | zero => decide
       | succ n => simp [qualifies, c1_env])
     (by decide)⟩

/-- A Vulkan adapter that supports the Win32 external-memory extension but
reports API version 1.0. -/
def c3_adapter : VkAdapter :=
  { is_vulkan := true, supports_external_memory_win32 := true,
    api_version := VK_API_VERSION_1_0, device_uuid := 7 }

/-- Counterexample to claim C3: the capability probe of `VulkanDevice::new`
succeeds on an adapter whose API version is below 1.1, because the source
checks only the Win32 external-memory extension and never reads the version. -/
theorem claim_C3_cex :
    adapter_vulkan_desc c3_adapter = some c3_adapter.device_uuid ∧
    c3_adapter.api_version < VK_API_VERSION_1_1 := ⟨rfl, by decide⟩

/-- Claim C3 as amended: the probe succeeds exactly when the adapter is
Vulkan-backed and supports the Win32 external-memory extension (no
API-version check), in which case it yields the device UUID; a failing probe
makes device creation fail with `MissingFeature` (through the spec-modelled
glue) and no device value is produced. -/
theorem claim_C3_amended (adapter : VkAdapter)
    (rest : Nat → Except DeviceCreateError (PairedDevice × Nat)) :
    ((adapter_vulkan_desc adapter).isSome ↔
      adapter.is_vulkan = true ∧ adapter.supports_external_memory_win32 = true) ∧
    ((adapter_vulkan_desc adapter).isSome →
      adapter_vulkan_desc adapter = some adapter.device_uuid) ∧
    (adapter_vulkan_desc adapter = none →
      Device.new_vulkan adapter rest = Except.error DeviceCreateError.MissingFeature) := by
  rcases adapter with ⟨iv, se, av, uuid⟩
  cases iv <;> cases se <;> simp [Device.new_vulkan, adapter_vulkan_desc]

/-- An adapter lacking the Win32 external-memory extension. -/
def c3_fail_adapter : VkAdapter :=
  { is_vulkan := true, supports_external_memory_win32 := false,
    api_version := VK_API_VERSION_1_1, device_uuid := 9 }

/-- Stub continuation for the pairing that follows a successful probe. -/
def rest_stub : Nat → Except DeviceCreateError (PairedDevice × Nat) := fun _ =>
  Except.error DeviceCreateError.OidnUnsupported

/-- Witness for the amended claim C3: an adapter without the extension makes
device creation fail with `MissingFeature`. -/
theorem claim_C3_amended_witness :
    Device.new_vulkan c3_fail_adapter rest_stub =
      Except.error DeviceCreateError.MissingFeature :=
  (claim_C3_amended c3_fail_adapter rest_stub).2.2 rfl

/-- Claim C7: every buffer of a successful allocation has its physical memory
allocated with exactly the requested size rounded up to the reported
alignment (a multiple of the alignment, at least the requested size, less
than one alignment above it), is bound to that allocation at offset 0, and
both the OIDN import and the wgpu wrapper are created with that same aligned
byte size. -/
theorem claim_C7_aligned_size (env : VkEnv) (size count : Nat)
    (bufs : List VulkanBuffer) (t : List Event)
    (h : VulkanDevice.allocate_buffers env size count = (Except.ok bufs, t))
    (ha : 0 < env.requirements.alignment) :
    ∀ b ∈ bufs,
      b.alloc_size = align_to size env.requirements.alignment ∧
      size ≤ b.alloc_size ∧
      b.alloc_size % env.requirements.alignment = 0 ∧
      b.alloc_size < size + env.requirements.alignment ∧
      Event.allocateMemory b.memory b.alloc_size b.memory_type_index ∈ t ∧
      Event.bindBufferMemory b.wgpu_raw b.memory 0 ∈ t ∧
      b.bind_offset = 0 ∧
      b.oidn_size = b.alloc_size ∧ b.wgpu_size = b.alloc_size := by
  intro b hb
  obtain ⟨-, -, -, -, -, hbok⟩ := allocate_buffers_ok env size count bufs t h
  obtain ⟨-, -, -, p4, p5, p6, p7, -, p9, p10, -⟩ := hbok b hb
  obtain ⟨a1, a2, a3⟩ := align_to_spec size env.requirements.alignment ha
  refine ⟨p4, ?_, ?_, ?_, p9, p10, p7, p5, p6⟩
  · rw [p4]
    exact a1
  · rw [p4]
    exact a2
  · rw [p4]
    exact a3

/-- Witness for claim C7: requesting 6 bytes in `ok_env` (alignment 4)
allocates 8 bytes, binds at offset 0, and both views use 8 bytes. -/
theorem claim_C7_witness :
    VulkanDevice.allocate_buffers ok_env 6 1 = (Except.ok [ok_buf], ok_trace) ∧
    0 < ok_env.requirements.alignment ∧
    ∀ b ∈ [ok_buf],
      b.alloc_size = align_to 6 ok_env.requirements.alignment ∧
      6 ≤ b.alloc_size ∧
      b.alloc_size % ok_env.requirements.alignment = 0 ∧
      b.alloc_size < 6 + ok_env.requirements.alignment ∧
      Event.allocateMemory b.memory b.alloc_size b.memory_type_index ∈ ok_trace ∧
      Event.bindBufferMemory b.wgpu_raw b.memory 0 ∈ ok_trace ∧
      b.bind_offset = 0 ∧
      b.oidn_size = b.alloc_size ∧ b.wgpu_size = b.alloc_size :=
  ⟨rfl, by decide, claim_C7_aligned_size ok_env 6 1 [ok_buf] ok_trace rfl (by decide)⟩

/-- Claim C8: a successful allocation issues exactly one submission per
returned buffer (one `submit` per buffer, and for each buffer exactly one
clear of its full range `0..size`) and never waits for completion. -/
theorem claim_C8_zero_init_submission (env : VkEnv) (size count : Nat)
    (bufs : List VulkanBuffer) (t : List Event)
    (h : VulkanDevice.allocate_buffers env size count = (Except.ok bufs, t)) :
    List.count Event.submit t = bufs.length ∧
    (∀ b ∈ bufs, List.count (Event.clearBuffer b.wgpu_raw 0 b.wgpu_size) t = 1) ∧
    Event.waitIdle ∉ t := by
  obtain ⟨-, -, hlen, hsub, hwait, hbok⟩ := allocate_buffers_ok env size count bufs t h
  refine ⟨by rw [hsub, hlen], ?_, hwait⟩
  intro b hb
  exact (hbok b hb).2.2.2.2.2.2.2.2.2.2

/-- Witness for claim C8: the single-buffer allocation in `ok_env` submits
exactly once, clears `0..8` exactly once, and never waits. -/
theorem claim_C8_witness :
    List.count Event.submit ok_trace = ([ok_buf] : List VulkanBuffer).length ∧
    (∀ b ∈ [ok_buf], List.count (Event.clearBuffer b.wgpu_raw 0 b.wgpu_size) ok_trace = 1) ∧
    Event.waitIdle ∉ ok_trace :=
  claim_C8_zero_init_submission ok_env 6 1 [ok_buf] ok_trace rfl

/-- A Vulkan adapter passing the probe, with device UUID 3. -/
def c9_adapter : VkAdapter :=
  { is_vulkan := true, supports_external_memory_win32 := true,
    api_version := VK_API_VERSION_1_1, device_uuid := 3 }

/-- Engine environment returning a null device for every UUID while
reporting a pending engine error. -/
def c9_env : OidnNewEnv :=
  { new_device_by_uuid := fun _ => none, null_device_error := 1,
    null_device_error_msg := "engine reported an error", request_device_ok := true }

/-- Counterexample to claim C9: device creation panics.  `VulkanDevice::new`
reaches the explicit `panic!` of src/vulkan.rs line 79 when
`oidnNewDeviceByUUID` returns null and `oidnGetDeviceError` reports an
error. -/
theorem claim_C9_cex :
    VulkanDevice.new c9_adapter c9_env =
      VkNewOutcome.panics "engine reported an error" := rfl

/-- Claim C9 as amended: `VulkanDevice::new` panics exactly when the probe
succeeds, the engine returns a null device for the UUID and the engine
reports a pending error (with that error's message); every other outcome of
device creation is success or a typed error, and every failure of
shared-buffer allocation is the immediately-propagated typed error
`Err(None)`. -/
theorem claim_C9_no_panic_amended :
    (∀ (adapter : VkAdapter) (env : OidnNewEnv) (msg : String),
      VulkanDevice.new adapter env = VkNewOutcome.panics msg ↔
        ∃ uuid, adapter_vulkan_desc adapter = some uuid ∧
          env.new_device_by_uuid uuid = none ∧
          env.null_device_error ≠ 0 ∧ msg = env.null_device_error_msg) ∧
    (∀ (env : VkEnv) (size count : Nat) (e : Option Unit) (t : List Event),
      VulkanDevice.allocate_buffers env size count = (Except.error e, t) → e = none) := by
  constructor
  · intro a env msg
    cases hdesc : adapter_vulkan_desc a with
    | none => simp [VulkanDevice.new, hdesc]
    | some uuid =>
      cases hdev : env.new_device_by_uuid uuid with
      | none =>
        by_cases herr : env.null_device_error ≠ 0
        · have hnew : VulkanDevice.new a env =
              VkNewOutcome.panics env.null_device_error_msg := by
            simp [VulkanDevice.new, hdesc, hdev, herr]
          rw [hnew]
          constructor
          · intro hp
            injection hp with hp
            exact ⟨uuid, rfl, hdev, herr, hp.symm⟩
          · rintro ⟨uuid2, -, -, -, hmsg⟩
            rw [hmsg]
        · push_neg at herr
          cases hreq : env.request_device_ok with
          | true =>
            have hnew : VulkanDevice.new a env = VkNewOutcome.ok none := by
              simp [VulkanDevice.new, hdesc, hdev, herr, hreq]
            rw [hnew]
            simp [herr]
          | false =>
            have hnew : VulkanDevice.new a env = VkNewOutcome.err (some ()) := by
              simp [VulkanDevice.new, hdesc, hdev, herr, hreq]
            rw [hnew]
            simp [herr]
      | some d =>
        cases hreq : env.request_device_ok with
        | true =>
          have hnew : VulkanDevice.new a env = VkNewOutcome.ok (some d) := by
            simp [VulkanDevice.new, hdesc, hdev, hreq]
          rw [hnew]
          simp [hdesc, hdev]
        | false =>
          have hnew : VulkanDevice.new a env = VkNewOutcome.err (some ()) := by
            simp [VulkanDevice.new, hdesc, hdev, hreq]
          rw [hnew]
          simp [hdesc, hdev]
  · intro env size count e t h
    exact allocate_buffers_error env size count e t h

/-- Engine environment with a different pending error and message. -/
def c9_env2 : OidnNewEnv :=
  { new_device_by_uuid := fun _ => none, null_device_error := 2,
    null_device_error_msg := "device query failed", request_device_ok := false }

/-- Witness for the amended claim C9: the panic characterization applied at a
concrete adapter and engine environment. -/
theorem claim_C9_no_panic_amended_witness :
    VulkanDevice.new c9_adapter c9_env2 = VkNewOutcome.panics "device query failed" :=
  (claim_C9_no_panic_amended.1 c9_adapter c9_env2 "device query failed").mpr
    ⟨3, rfl, rfl, by decide, rfl⟩

end OidnWgpu
